import Mathlib

/-!
Shallow embedding of `stress_api.py`, a FastAPI service with three POST
endpoints (`/predict`, `/chat`, `/suggest`) and a GET health endpoint.
JSON values are modelled by `JVal` (numbers as rationals), Python dicts by
association lists with distinct keys, exceptions by `Except String`, and the
three pickled artifacts (model, feature list, encoder mapping), which are
external files not part of the repository, by the parameters of `Artifacts`.
Outbound HTTP calls to the completion provider are modelled by function
parameters; handlers that call out return the trace of payloads they sent.
-/

namespace StressApi

/-- A JSON value as decoded by Python's `json` module: numbers are modelled
by rationals, objects by association lists (Python dicts have unique keys). -/
inductive JVal where
  | null : JVal
  | bool : Bool → JVal
  | num : ℚ → JVal
  | str : String → JVal
  | arr : List JVal → JVal
  | obj : List (String × JVal) → JVal

/-- Python truthiness (`bool(x)`) for decoded JSON values: `None`, `False`,
zero, the empty string, the empty list and the empty dict are falsy. -/
def truthy : JVal → Bool
  | .null => false
  | .bool b => b
  | .num q => q != 0
  | .str s => s != ""
  | .arr xs => !xs.isEmpty
  | .obj kvs => !kvs.isEmpty

/-- Key lookup in an object body (`d[k]` presence side): first binding wins,
matching unique-key Python dicts. -/
def lookupJ (kvs : List (String × JVal)) (k : String) : Option JVal :=
  (kvs.find? (fun p => p.1 == k)).map (fun p => p.2)

/-- Python `d.get(k, default)`. -/
def dictGetJ (kvs : List (String × JVal)) (k : String) (dflt : JVal) : JVal :=
  match lookupJ kvs k with
  | some v => v
  | none => dflt

/-- Python `x or y` specialised to the uses in `suggest` (`body.get(...) or ""`). -/
def pyOr (x y : JVal) : JVal :=
  if truthy x then x else y

/-- Rendering of a rational in an f-string. Python prints floats in decimal;
the exact float syntax is abstracted, only integral values (den = 1) and the
empty-vs-nonempty distinction matter to the properties proved below. -/
def renderNum (q : ℚ) : String :=
  if q.den = 1 then toString q.num else toString q

/-- Python `str(x)` / f-string interpolation of a decoded JSON value.
Container rendering is abstracted (no proved property depends on it). -/
def pyStr : JVal → String
  | .null => "None"
  | .bool true => "True"
  | .bool false => "False"
  | .num q => renderNum q
  | .str s => s
  | .arr _ => "[...]"
  | .obj _ => "\x7b...\x7d"

/-- Digits-only check used by the float parser. -/
def allDigits (cs : List Char) : Bool :=
  cs.all (fun c => c.isDigit)

/-- Value of a digit string. -/
def digitsVal (cs : List Char) : ℕ :=
  cs.foldl (fun acc c => 10 * acc + (c.toNat - 48)) 0

/-- Python `float(s)` on a string, modelled for plain decimal literals with an
optional sign and fraction part (no exponent). Anything else raises
`ValueError` with Python's message. -/
def floatOfString (s : String) : Except String ℚ :=
  let fail : Except String ℚ :=
    .error ("could not convert string to float: \x27" ++ s ++ "\x27")
  let t := ((s.toList.dropWhile (fun c => c.isWhitespace)).reverse.dropWhile
    (fun c => c.isWhitespace)).reverse
  let (sgn, body) : ℚ × List Char :=
    match t with
    | '-' :: rest => (-1, rest)
    | '+' :: rest => (1, rest)
    | cs => (1, cs)
  match (body.splitOn '.') with
  | [intPart] =>
      if intPart ≠ [] ∧ allDigits intPart then .ok (sgn * digitsVal intPart)
      else fail
  | [intPart, fracPart] =>
      if (intPart ≠ [] ∨ fracPart ≠ []) ∧ allDigits intPart ∧ allDigits fracPart then
        .ok (sgn * ((digitsVal intPart : ℚ) +
          (digitsVal fracPart : ℚ) / ((10 : ℚ) ^ fracPart.length)))
      else fail
  | _ => fail

/-- Python's type name of a decoded JSON value, as it appears in `TypeError`
messages (`int` and `float` both pass `float()`, so their shared name here is
never reached by an error path). -/
def pyTypeName : JVal → String
  | .null => "NoneType"
  | .bool _ => "bool"
  | .num _ => "float"
  | .str _ => "str"
  | .arr _ => "list"
  | .obj _ => "dict"

/-- Python `float(raw_value)` on a decoded JSON value: numbers pass through,
booleans coerce, strings are parsed, everything else raises `TypeError`. -/
def pyFloat : JVal → Except String ℚ
  | .num q => .ok q
  | .bool true => .ok 1
  | .bool false => .ok 0
  | .str s => floatOfString s
  | v => .error ("float() argument must be a string or a real number, not \x27"
      ++ pyTypeName v ++ "\x27")

/-- An HTTP response: status code and JSON body. FastAPI returns status 200
for a plain dict return value. -/
structure HttpResponse where
  status : ℕ
  body : JVal

/-- The `{"error": str(e)}` body produced by the broad exception handlers. -/
def errObj (msg : String) : JVal :=
  .obj [("error", .str msg)]

/-! ### The three pickled artifacts (external to the repository) -/

/-- The process-wide artifacts loaded by `joblib.load` at startup: the feature
list `top_features`, the encoder dict `top_feature_encoders` (an encoder's
`transform([v])[0]`, which may raise on unseen labels, is a
`JVal → Except String ℚ`), and the classifier `model` (`model.predict` on a
single-row vector, returning a label rendered by `str`). Their contents live
in pickle files outside the repository, so they are parameters. -/
structure Artifacts where
  top_features : List String
  top_feature_encoders : String → Option (JVal → Except String ℚ)
  model : List ℚ → String

/-! ### `/predict` -/

/-- One iteration step of the `for feature_name in top_features` loop:
require the key, then encode via the fitted encoder when one exists for the
feature, otherwise `float(raw_value)`. -/
def encodeFeature (A : Artifacts) (raw : List (String × JVal)) (f : String) :
    Except String ℚ :=
  match lookupJ raw f with
  | none => .error ("Missing feature: " ++ f)
  | some v =>
      match A.top_feature_encoders f with
      | some enc => enc v
      | none => pyFloat v

/-- The accumulation loop of `predict`: builds `input_values` in feature-list
order, stopping at the first missing feature or encoding exception. -/
def collectValues (A : Artifacts) (raw : List (String × JVal)) :
    List String → Except String (List ℚ)
  | [] => .ok []
  | f :: rest => do
      let x ← encodeFeature A raw f
      let xs ← collectValues A raw rest
      pure (x :: xs)

/-- The fixed recommendation table `activities` of `predict`. -/
def activities : List (String × String) :=
  [("Low", "Listen to calming music"),
   ("Medium", "Go for a walk"),
   ("High", "Take deep breaths and meditate")]

/-- Python `d.get(k, default)` on a string-to-string dict. -/
def dictGetS (kvs : List (String × String)) (k : String) (dflt : String) : String :=
  match kvs.find? (fun p => p.1 == k) with
  | some p => p.2
  | none => dflt

/-- The `/predict` handler. Its argument is the outcome of
`await request.json()` (`.error` = the body did not parse, an exception) with
a parsed object body on success. Every failure path returns status 200 with
an `{"error": ...}` body: the missing-feature early return and the broad
`except Exception` alike. -/
def predictHandler (A : Artifacts)
    (parsed : Except String (List (String × JVal))) : HttpResponse :=
  match parsed with
  | .error e => ⟨200, errObj e⟩
  | .ok raw =>
      match collectValues A raw A.top_features with
      | .error e => ⟨200, errObj e⟩
      | .ok vals =>
          let prediction := A.model vals
          ⟨200, .obj [("stress_level", .str prediction),
                      ("recommendation", .str (dictGetS activities prediction
                        "No suggestion available"))]⟩

/-- The step `encodeFeature` succeeds on feature `f` with value `x`: the key
is present and the encoder (or float parse) returns `x`. -/
def EncodesTo (A : Artifacts) (raw : List (String × JVal)) (f : String) (x : ℚ) : Prop :=
  encodeFeature A raw f = .ok x

/-! ### `/chat` -/

/-- A message in a completion payload. `content` is a JSON value: the user
message is whatever `data.get("message", "")` returned. -/
structure ChatMessage where
  role : String
  content : JVal

/-- The JSON payload sent to the completion provider. -/
structure ChatPayload where
  model : String
  messages : List ChatMessage

/-- The fixed system persona message of `chat` (the triple-quoted string
keeps its source indentation, as in Python). -/
def chatSystemPrompt : ChatMessage :=
  ⟨"system", .str "You are CalmViz, a friendly and empathetic stress-relief assistant.\n            Respond warmly in 2–3 sentences. If asked to switch to Mandarin, reply:\n            \x27你好！今天我可以帮你做些什么呢？\x27"⟩

/-- The payload `chat` builds: the fixed model identifier, the persona
message, then the user message. -/
def chatPayloadFor (userMessage : JVal) : ChatPayload :=
  ⟨"openai/gpt-4o-mini", [chatSystemPrompt, ⟨"user", userMessage⟩]⟩

/-- The `/chat` handler. `provider` models `requests.post(...).json()` on the
completion endpoint: `.error` is any exception raised by the post or while
parsing its response body. The handler returns the trace of outbound
payloads it sent together with the HTTP response; every exception is caught
by the broad `except` and surfaced as a 200-status `{"error": ...}` body. -/
def chatHandler (provider : ChatPayload → Except String JVal)
    (parsed : Except String (List (String × JVal))) :
    List ChatPayload × HttpResponse :=
  match parsed with
  | .error e => ([], ⟨200, errObj e⟩)
  | .ok data =>
      let user_message := dictGetJ data "message" (.str "")
      let payload := chatPayloadFor user_message
      match provider payload with
      | .error e => ([payload], ⟨200, errObj e⟩)
      | .ok j => ([payload], ⟨200, j⟩)

/-! ### `/suggest` -/

/-- The fixed rules block `RULES_FORMAT` of `suggest`, verbatim from the
source (braces and apostrophes are written with escape codes). -/
def RULES_FORMAT : String := "\nRESPONSE FORMAT: Return your answer ONLY as a JSON object.  \nAlways follow this exact structure:\n\n\x7b\n  \"action_title\": \"A very short, catchy name for the action (3–5 words max)\",\n  \"action_description\": \"One clear sentence explaining the action and why it helps.\",\n  \"action_steps\": [\n    \"Step 1...\",\n    \"Step 2...\",\n    \"Step 3...\"\n  ],\n  \"extras\": \x7b\n    \"timing\": \"\",            // Only if activity = \"breathing\", else \"\"\n    \"duration\": \"\",          // Only if activity = \"exercise\", else \"\"\n  \x7d,\n  \"links\": \x7b\n    \"spotify\": \"\",           // Only if activity = \"music\", else \"\"\n    \"youtube\": \"\",           // Only if activity = \"music\", else \"\"\n    \"video\": \"\",             // Only if activity = \"exercise\" or activity = \"watching videos\", else \"\"\n    \"reading\": \"\",           // Only if activity = \"reading\", else \"\"\n    \"game\": \"https://www.crazygames.com/t/relaxing\" // Only if activity = \"game\", else \"\"\n  \x7d,\n  \"travel\": \x7b\n    \"title\": \"\",               // If budget exists → descriptive trip name. If no budget → leave empty.\n    \"budget\": \"\",              // Copy user\x27s budget. If empty → no travel plan should be generated.\n    \"plan\": [],                // Must remain [] if budget is empty\n    \"budget_breakdown\": \x7b\x7d     // Must remain \x7b\x7d if budget is empty\n  \x7d,\n  \"meals\": \x7b\n    \"nearby_food\": [],        \n    \"restaurant_details\": []  // Each item = \x7b \"name\": \"\", \"address\": \"\", \"dish\": \"\", \"price_range\": \"\", \"map_link\": \"\" \x7d\n  \x7d\n\x7d\n\nRULES:\n- If activity is **sleeping** → \n   * Fill `extras.duration` with recommended hours (high stress = Try to sleep more (about 8–9 hours).;, moderate = Aim for 7–8 hours of sleep., low = Maintain about 7 hours of sleep.).\n   * In `action_steps`, include at least:\n       1. Environment setup (temperature around 18–20°C, dark, quiet room).\n       2. Pre-sleep routine (reading, meditation, stretching).\n       3. Techniques to reduce stress (deep breathing, journaling, body scan).\n       4. Consistent sleep schedule (same bedtime/wake time daily).\n    * No need fill in links.\n\n- If activity is **music** →\n   * Always fill `links.spotify` with a Spotify search query for calming/relaxing music.\n   * Always fill `links.youtube` with a YouTube search query for calming/relaxing music.\n   * Do NOT use direct links to single videos/playlists (to avoid broken links).\n\n- If activity is **breathing** → fill `extras.timing` (e.g., \"4-4-4-4\").\n- If activity is **exercise** → fill `links.video` and mention duration in `extras.duration`, and also inside `action_steps`.\n- If activity is **traveling** →\n   * If budget is missing or empty → \n       - Set \"travel.title\" = \"\"  \n       - Set \"travel.plan\" = []  \n       - Set \"travel.budget_breakdown\" = \x7b\x7d  \n   * Only if budget exists → then generate travel.title, plan, and budget_breakdown.\n   * The user will not provide a destination, so you must select a suitable, budget-friendly destination in Malaysia.\n   * Always include a `travel.title` for the trip (e.g., \"Exploring Penang\" or \"Malacca Cultural Getaway\").\n   * Always copy the user\x27s budget into `travel.budget`.\n   * Always include `travel.title` with a descriptive destination name. \n   *If user did not give a place, choose a suitable student-friendly travel destination in Malaysia\n   * In `travel.plan`, create a **detailed multi-day travel itinerary** (2–4 days depending on budget).\n   * Each day must include:\n       - **Title**: A short title (e.g., \"Day 1: Arrival & Heritage Walk\").\n       - **Morning**: Main activity with location name and short description.\n       - **Afternoon**: Main activity with location name and short description.\n       - **Evening**: Main activity with location name and short description.\n       - **Meals**: Suggested food with dish names and recommended restaurants/stalls.\n       - **Accommodation**: Hotel/hostel name, type, location, and approx. cost per night.\n   * Include a `budget_breakdown` object inside `travel`:\n       - Transport (bus/flight/taxi costs)\n       - Accommodation (per night × nights)\n       - Meals (estimated daily food cost)\n       - Activities/Attractions (tickets, tours, etc.)\n       - Miscellaneous (souvenirs, snacks, local transport)\n       - Total (sum of all categories, must not exceed budget)\n   * Mention **specific locations/attractions** (e.g., \"Penang Hill\", \"Batu Ferringhi Beach\") instead of general words like \"temple\" or \"beach\".\n   * Ensure the flow looks like a **professional travel agency itinerary**, clear and structured.\n   * Keep the plan **student-friendly, affordable, and stress-relieving** (focus on budget-friendly food, hostels, and free/low-cost attractions).\n\n- If activity is **watching videos** → fill `links.video`.\n   * Always fill `links.video` with a YouTube search query for funny or stress-relief videos.\n\n- If activity is reading → fill links.reading.\n   * Always fill links.reading with a free eBook or article link (e.g., Project Gutenberg, Open Library, or Google Books).\n   * Choose stress-relief, motivational, or light novels suitable for relaxation.\n   * Ensure the link is accessible and not behind a paywall.\n   \n- If activity is **enjoying meals** →  \n   * Use provided `lat` and `lng` (user\x27s location) to recommend **3–5 nearby restaurants or street food stalls**.  \n   * Fill `meals.nearby_food` with short names of suggested dishes (e.g., \"Nasi Lemak\", \"Char Kway Teow\").  \n   * Fill `meals.restaurant_details` with objects like:  \n     \x7b\n       \"name\": \"Ali Nasi Lemak\",\n       \"address\": \"123 Jalan Ampang, Kuala Lumpur\",\n       \"dish\": \"Nasi Lemak with fried chicken\",\n       \"price_range\": \"RM8–RM12\"\n     \x7d  \n   * Keep suggestions **budget-friendly and student-friendly**.  \n   * If location cannot be used → return empty `meals` fields.  \n   * For each restaurant in meals.restaurant_details, always include \"map_link\" as a Google Maps link using the exact restaurant name + full address (if available). \n- If an exact link cannot be generated, use a Google Maps search query with the restaurant name + town.\n\n- If activity is not relevant for a field → leave it empty (`\"\"` or `[]`).\n- Do NOT add extra fields outside this schema.\n- Always return **valid JSON** only, with no text before or after.\n"

/-- `locationPart`: the coordinate clause is appended only when `lat` and
`lng` are both truthy, the town clause only when `town` is truthy. -/
def locationPart (lat lng town : JVal) : String :=
  (if truthy lat && truthy lng then
    "User location: latitude = " ++ pyStr lat ++ ", longitude = " ++ pyStr lng ++ ". "
  else "") ++
  (if truthy town then "User town: " ++ pyStr town ++ "." else "")

/-- The user prompt `suggest` builds by f-string interpolation. -/
def suggestPrompt (activity budget : JVal) (locPart : String) : String :=
  "You are an AI assistant that recommends stress-relief activities.\nUser input activity: "
    ++ pyStr activity ++ "\nUser budget: " ++ pyStr budget ++ "\n" ++ locPart
    ++ "\n" ++ RULES_FORMAT

/-- The payload `suggest` sends: a different fixed model identifier, a fixed
system message, and the templated prompt as the user message. -/
def suggestPayloadFor (prompt : String) : ChatPayload :=
  ⟨"openai/gpt-5-pro",
   [⟨"system", .str "You are a helpful assistant that only outputs valid JSON."⟩,
    ⟨"user", .str prompt⟩]⟩

/-- Outcome of the outbound `requests.post(..., timeout=30)` in `suggest`:
`requestError` is a `requests.exceptions.RequestException` (the post raised,
or `raise_for_status` raised on a non-2xx status); `response p` is a 2xx
response whose `response.json()` parse outcome is `p`. -/
inductive ProviderOutcome where
  | requestError : String → ProviderOutcome
  | response : Except String JVal → ProviderOutcome

/-- Result of `suggest`: a parsed JSON object returned with status 200, or an
`HTTPException` with a status code and a `detail` string. -/
inductive SuggestResult where
  | ok : JVal → SuggestResult
  | httpError : ℕ → String → SuggestResult

/-- Equality test of a JSON value against a string (Python `==` inside a
list membership test; only string elements can match a string). -/
def isStrEq : JVal → String → Bool
  | .str s, k => s == k
  | _, _ => false

/-- Python `k in x`: key test on a dict, membership on a list, substring test
on a string, `TypeError` otherwise. -/
def pyContains (v : JVal) (k : String) : Except String Bool :=
  match v with
  | .obj kvs => .ok (kvs.any (fun p => p.1 == k))
  | .arr xs => .ok (xs.any (fun x => isStrEq x k))
  | .str s => .ok ((s.splitOn k).length > 1)
  | w => .error ("argument of type " ++ pyStr w ++ " is not iterable")

/-- Python `len(x)`: `TypeError` on numbers, booleans and `None`. -/
def pyLen : JVal → Except String ℕ
  | .str s => .ok s.length
  | .arr xs => .ok xs.length
  | .obj kvs => .ok kvs.length
  | v => .error ("object of type " ++ pyStr v ++ " has no len()")

/-- Python `x[k]` with a string key: dict lookup (`KeyError` when the key is
missing), `TypeError` on anything that is not a dict. -/
def pyIndexS : JVal → String → Except String JVal
  | .obj kvs, k =>
      match lookupJ kvs k with
      | some v => .ok v
      | none => .error ("KeyError: \x27" ++ k ++ "\x27")
  | v, _ => .error ("TypeError: " ++ pyStr v ++ " indices must not be str")

/-- Python `x[i]` with a non-negative integer index. -/
def pyIndexNat : JVal → ℕ → Except String JVal
  | .arr xs, i =>
      match xs.get? i with
      | some v => .ok v
      | none => .error "IndexError: list index out of range"
  | .str s, i =>
      match s.toList.get? i with
      | some c => .ok (.str (String.mk [c]))
      | none => .error "IndexError: string index out of range"
  | .obj _, i => .error ("KeyError: " ++ toString i)
  | _, _ => .error "TypeError: object is not subscriptable"

/-- The expression `response_data["choices"][0]["message"]["content"]`. -/
def extractContent (choices : JVal) : Except String JVal := do
  let c0 ← pyIndexNat choices 0
  let m ← pyIndexS c0 "message"
  pyIndexS m "content"

/-- The tail of `suggest` after a parsed provider response: the
`"choices" in response_data and len(response_data["choices"]) > 0` test, the
`choices[0]["message"]["content"]` extraction, `json.loads` on the content,
and the surrounding `except` clauses. A `json.JSONDecodeError` from `loads`
maps to detail `Invalid JSON response: ...`; the `HTTPException(500, "No
response from AI")` raised on a failed test is itself caught by the broad
`except Exception` (an `HTTPException` is an `Exception`, and `str` of a
starlette `HTTPException` is `"<status>: <detail>"`), producing detail
`Error: 500: No response from AI`; every other exception also lands in the
broad clause with detail `Error: ...`. -/
def suggestExtract (loads : String → Except String JVal) (rd : JVal) : SuggestResult :=
  match pyContains rd "choices" with
  | .error e => .httpError 500 ("Error: " ++ e)
  | .ok false => .httpError 500 ("Error: 500: No response from AI")
  | .ok true =>
      match pyIndexS rd "choices" with
      | .error e => .httpError 500 ("Error: " ++ e)
      | .ok choices =>
          match pyLen choices with
          | .error e => .httpError 500 ("Error: " ++ e)
          | .ok n =>
              if n > 0 then
                match extractContent choices with
                | .error e => .httpError 500 ("Error: " ++ e)
                | .ok (.str content) =>
                    match loads content with
                    | .ok j => .ok j
                    | .error e => .httpError 500 ("Invalid JSON response: " ++ e)
                | .ok v =>
                    .httpError 500 ("Error: the JSON object must be str, bytes or bytearray, not "
                      ++ pyStr v)
              else .httpError 500 ("Error: 500: No response from AI")

/-- The prompt `suggest` builds from a parsed body: `body.get` with defaults,
the `or ""` coercions on `activity` and `budget`, and `locationPart`. -/
def suggestPromptOf (body : List (String × JVal)) : String :=
  suggestPrompt
    (pyOr (dictGetJ body "activity" (.str "")) (.str ""))
    (pyOr (dictGetJ body "budget" (.str "")) (.str ""))
    (locationPart (dictGetJ body "lat" .null) (dictGetJ body "lng" .null)
      (dictGetJ body "town" .null))

/-- The `/suggest` handler. `parsed` is the outcome of `await request.json()`
(failure raises `HTTPException(400, "Invalid JSON body")`); `provider` is the
outbound call; `loads` models Python's `json.loads` (an external library
function). -/
def suggestHandler (provider : ChatPayload → ProviderOutcome)
    (loads : String → Except String JVal)
    (parsed : Except String (List (String × JVal))) : SuggestResult :=
  match parsed with
  | .error _ => .httpError 400 "Invalid JSON body"
  | .ok body =>
      match provider (suggestPayloadFor (suggestPromptOf body)) with
      | .requestError e => .httpError 500 ("API request failed: " ++ e)
      | .response (.error e) => .httpError 500 ("Invalid JSON response: " ++ e)
      | .response (.ok response_data) => suggestExtract loads response_data

/-! ### Outbound call sites and the request-level state machine -/

/-- An outbound provider call site: which handler it sits in, the URL, and
the `timeout` keyword argument it passes (`none` = no timeout passed). -/
structure OutboundCallSite where
  handler : String
  url : String
  timeout : Option ℕ

/-- All `requests.post` call sites in the source: line 103 in `chat` (no
timeout argument) and line 262 in `suggest` (`timeout=30`). -/
def outboundCallSites : List OutboundCallSite :=
  [⟨"chat", "https://openrouter.ai/api/v1/chat/completions", none⟩,
   ⟨"suggest", "https://openrouter.ai/api/v1/chat/completions", some 30⟩]

/-- The response of `GET /`. -/
def rootResponse : HttpResponse :=
  ⟨200, .obj [("status", .str "ok"),
              ("message", .str "CalmViz API is running"),
              ("endpoints", .arr [.str "/predict", .str "/chat", .str "/suggest"])]⟩

/-- One incoming request, with the environment (parse outcome, provider
behaviour) it is handled against. -/
inductive Request where
  | root : Request
  | predict : Except String (List (String × JVal)) → Request
  | chat : (ChatPayload → Except String JVal) →
      Except String (List (String × JVal)) → Request
  | suggest : (ChatPayload → ProviderOutcome) → (String → Except String JVal) →
      Except String (List (String × JVal)) → Request

/-- Rendering of a `suggest` result as an HTTP response (FastAPI turns an
uncaught `HTTPException` into a response with its status and a `detail`
body). -/
def suggestResponse : SuggestResult → HttpResponse
  | .ok j => ⟨200, j⟩
  | .httpError s d => ⟨s, .obj [("detail", .str d)]⟩

/-- Handling one request: the returned `Artifacts` value is the process-wide
state after the request, i.e. whatever the handler body assigns to the
globals `model`, `top_features`, `top_feature_encoders` — the source contains
no such assignment, so each branch passes the state through. -/
def handleRequest (A : Artifacts) (r : Request) : Artifacts × HttpResponse :=
  match r with
  | .root => (A, rootResponse)
  | .predict parsed => (A, predictHandler A parsed)
  | .chat provider parsed => (A, (chatHandler provider parsed).2)
  | .suggest provider loads parsed =>
      (A, suggestResponse (suggestHandler provider loads parsed))

/-- The artifact state after a sequence of requests. -/
def runRequests (A : Artifacts) (rs : List Request) : Artifacts :=
  rs.foldl (fun st r => (handleRequest st r).1) A

/-! ### Helper lemmas -/

/-- The empty string is a left identity of string append. -/
theorem empty_append_str (s : String) : "" ++ s = s := rfl

/-- The returned state of one request is the state it was handled against. -/
theorem handleRequest_fst (A : Artifacts) (r : Request) :
    (handleRequest A r).1 = A := by
  cases r <;> rfl

/-- If every feature encodes successfully (in order, to `vals`), the
accumulation loop returns `vals`. -/
theorem collectValues_of_forall2 (A : Artifacts) (raw : List (String × JVal))
    {feats : List String} {vals : List ℚ}
    (h : List.Forall₂ (EncodesTo A raw) feats vals) :
    collectValues A raw feats = .ok vals := by
  induction h with
  | nil => rfl
  | cons hfx _ ih =>
      unfold EncodesTo at hfx
      simp [collectValues, hfx, ih, Bind.bind, Except.bind, Pure.pure, Except.pure]

/-- If some feature is missing from the body, the accumulation loop raises. -/
theorem collectValues_error_of_missing (A : Artifacts) (raw : List (String × JVal)) :
    ∀ feats : List String, (∃ f ∈ feats, lookupJ raw f = none) →
      ∃ m, collectValues A raw feats = .error m := by
  intro feats
  induction feats with
  | nil => rintro ⟨f, hf, _⟩; cases hf
  | cons g rest ih =>
      rintro ⟨f, hf, hnone⟩
      cases henc : encodeFeature A raw g with
      | error e =>
          exact ⟨e, by simp [collectValues, henc, Bind.bind, Except.bind]⟩
      | ok x =>
          have hf' : f ∈ rest := by
            rcases List.mem_cons.mp hf with rfl | h
            · exfalso
              unfold encodeFeature at henc
              rw [hnone] at henc
              cases henc
            · exact h
          obtain ⟨m, hm⟩ := ih ⟨f, hf', hnone⟩
          exact ⟨m, by simp [collectValues, henc, hm, Bind.bind, Except.bind]⟩

/-- If every feature before `f` encodes successfully and `f` is missing, the
loop stops at `f` with the missing-feature message. -/
theorem collectValues_first_missing (A : Artifacts) (raw : List (String × JVal)) :
    ∀ (pre : List String) (f : String) (rest : List String),
      lookupJ raw f = none →
      (∀ g ∈ pre, ∃ x, EncodesTo A raw g x) →
      collectValues A raw (pre ++ f :: rest) = .error ("Missing feature: " ++ f) := by
  intro pre
  induction pre with
  | nil =>
      intro f rest hnone _
      simp [collectValues, encodeFeature, hnone, Bind.bind, Except.bind]
  | cons g gs ih =>
      intro f rest hnone hpre
      obtain ⟨x, hx⟩ := hpre g (List.mem_cons_self g gs)
      unfold EncodesTo at hx
      have hrec := ih f rest hnone (fun g' hg' => hpre g' (List.mem_cons_of_mem g hg'))
      simp [collectValues, hx, hrec, Bind.bind, Except.bind]

/-- Status of a `suggest` result (`none` for a normal JSON return). -/
def suggestStatus : SuggestResult → Option ℕ
  | .ok _ => none
  | .httpError s _ => some s

/-- Every branch of the extraction tail returns either a parsed object or a
500. -/
theorem suggestExtract_status (loads : String → Except String JVal) (rd : JVal) :
    suggestStatus (suggestExtract loads rd) = none ∨
    suggestStatus (suggestExtract loads rd) = some 500 := by
  unfold suggestExtract
  (repeat' split) <;> simp [suggestStatus]

/-! ### Claims -/

/-- Claim C1: for every `/predict` body containing every name in the feature
list, where each value is obtained by the fitted encoder when one exists for
the feature and by float parsing otherwise (hypothesis `h`, feature-list
order), the response is status 200 with `stress_level` the model's predicted
label on the assembled vector and `recommendation` the exact-match lookup of
that label in the fixed table, defaulting to "No suggestion available". -/
theorem predict_success_spec (A : Artifacts) (raw : List (String × JVal))
    (vals : List ℚ)
    (h : List.Forall₂ (EncodesTo A raw) A.top_features vals) :
    predictHandler A (.ok raw) =
      ⟨200, .obj [("stress_level", .str (A.model vals)),
                  ("recommendation", .str (dictGetS activities (A.model vals)
                    "No suggestion available"))]⟩ := by
  simp [predictHandler, collectValues_of_forall2 A raw h]

/-- Concrete artifacts for the C1 witness: two features, one with a fitted
encoder, a model that labels everything "Low". -/
def witArt : Artifacts :=
  ⟨["sleep_hours", "mood"],
   fun f => if f = "mood" then
      some (fun v => match v with
        | .str "calm" => .ok 1
        | _ => .error "y contains previously unseen labels")
    else none,
   fun _ => "Low"⟩

/-- Witness for C1 at a concrete body covering both the encoder branch and
the float branch. -/
theorem predict_success_spec_witness :
    predictHandler witArt (.ok [("sleep_hours", .num 7), ("mood", .str "calm")]) =
      ⟨200, .obj [("stress_level", .str "Low"),
                  ("recommendation", .str "Listen to calming music")]⟩ :=
  predict_success_spec witArt [("sleep_hours", .num 7), ("mood", .str "calm")]
    [7, 1] (.cons rfl (.cons rfl .nil))

/-- Claim C2 (amended): a `/predict` body missing a required feature always
produces an `{"error": ...}` response; the error names the missing feature
(`Missing feature: <name>`, the first missing one in feature-list order)
provided every feature before it is present and encodes without raising —
an earlier encoding exception produces that exception's message instead. -/
theorem predict_missing_feature (A : Artifacts) (raw : List (String × JVal))
    (hmiss : ∃ f ∈ A.top_features, lookupJ raw f = none) :
    (∃ m, predictHandler A (.ok raw) = ⟨200, errObj m⟩) ∧
    (∀ pre f rest, A.top_features = pre ++ f :: rest →
      lookupJ raw f = none →
      (∀ g ∈ pre, ∃ x, EncodesTo A raw g x) →
      predictHandler A (.ok raw) = ⟨200, errObj ("Missing feature: " ++ f)⟩) := by
  constructor
  · obtain ⟨m, hm⟩ := collectValues_error_of_missing A raw A.top_features hmiss
    exact ⟨m, by simp [predictHandler, hm]⟩
  · intro pre f rest hsplit hnone hpre
    have h := collectValues_first_missing A raw pre f rest hnone hpre
    simp [predictHandler, hsplit, h]

/-- Witness for C2 (amended) at a concrete body missing `mood`. -/
theorem predict_missing_feature_witness :
    predictHandler witArt (.ok [("sleep_hours", .num 7)]) =
      ⟨200, errObj "Missing feature: mood"⟩ :=
  (predict_missing_feature witArt [("sleep_hours", .num 7)]
      ⟨"mood", by simp [witArt], rfl⟩).2
    ["sleep_hours"] "mood" [] rfl rfl
    (fun g hg => by
      rw [List.mem_singleton.mp hg]
      exact ⟨7, rfl⟩)

/-- Artifacts for the C2 counterexample: no encoders, so `float` parses the
raw values. -/
def cexArt : Artifacts :=
  ⟨["sleep_hours", "mood"], fun _ => none, fun _ => "Low"⟩

/-- Counterexample to C2 as stated: the body lacks the required feature
`mood`, but because the earlier feature `sleep_hours` carries a non-numeric
value the handler's error is the float `ValueError` message, which does not
name (or even mention) the missing feature. -/
theorem predict_missing_feature_counterexample :
    ("mood" ∈ cexArt.top_features ∧
      lookupJ [("sleep_hours", JVal.str "zz")] "mood" = none) ∧
    predictHandler cexArt (.ok [("sleep_hours", JVal.str "zz")]) =
      ⟨200, errObj "could not convert string to float: \x27zz\x27"⟩ ∧
    "could not convert string to float: \x27zz\x27" ≠ "Missing feature: mood" := by
  exact ⟨⟨by simp [cexArt], rfl⟩, rfl, by decide⟩

/-- Claim C4: every exception while handling `/predict` or `/chat` — a body
that fails to parse, an encoding exception inside the `predict` loop, or a
failed outbound call in `chat` — is returned as a 200-status JSON body
`{"error": <the exception message>}`, never a distinct error status. -/
theorem handlers_error_status_200 :
    (∀ (A : Artifacts) (e : String),
      predictHandler A (.error e) = ⟨200, errObj e⟩) ∧
    (∀ (A : Artifacts) (raw : List (String × JVal)) (e : String),
      collectValues A raw A.top_features = .error e →
      predictHandler A (.ok raw) = ⟨200, errObj e⟩) ∧
    (∀ (provider : ChatPayload → Except String JVal) (e : String),
      chatHandler provider (.error e) = ([], ⟨200, errObj e⟩)) ∧
    (∀ (provider : ChatPayload → Except String JVal)
       (data : List (String × JVal)) (e : String),
      provider (chatPayloadFor (dictGetJ data "message" (.str ""))) = .error e →
      chatHandler provider (.ok data) =
        ([chatPayloadFor (dictGetJ data "message" (.str ""))], ⟨200, errObj e⟩)) := by
  refine ⟨fun A e => rfl, fun A raw e h => by simp [predictHandler, h],
    fun provider e => rfl, fun provider data e h => by simp [chatHandler, h]⟩

/-- Witness for C4: each of the four exception paths at a concrete input. -/
theorem handlers_error_status_200_witness :
    predictHandler cexArt (.error "Expecting value: line 1 column 1 (char 0)") =
      ⟨200, errObj "Expecting value: line 1 column 1 (char 0)"⟩ ∧
    predictHandler cexArt (.ok [("sleep_hours", JVal.null), ("mood", JVal.num 1)]) =
      ⟨200, errObj "float() argument must be a string or a real number, not \x27NoneType\x27"⟩ ∧
    chatHandler (fun _ => .error "Connection refused") (.error "bad body") =
      ([], ⟨200, errObj "bad body"⟩) ∧
    chatHandler (fun _ => .error "Connection refused") (.ok []) =
      ([chatPayloadFor (.str "")], ⟨200, errObj "Connection refused"⟩) :=
  ⟨handlers_error_status_200.1 cexArt _,
   handlers_error_status_200.2.1 cexArt _ _ rfl,
   handlers_error_status_200.2.2.1 _ "bad body",
   handlers_error_status_200.2.2.2 (fun _ => .error "Connection refused") [] _ rfl⟩

/-- Claim C6: for every `/chat` request with a JSON object body, the handler
issues exactly one outbound call, whose payload is the fixed model identifier
with the fixed persona message followed by the user message
(`data.get("message", "")`), and returns the provider's JSON response body
unmodified with status 200; when the `message` field is absent or the empty
string, the user message is the empty string. -/
theorem chat_request_spec (provider : ChatPayload → Except String JVal)
    (data : List (String × JVal)) (j : JVal)
    (hp : provider (chatPayloadFor (dictGetJ data "message" (.str ""))) = .ok j) :
    chatHandler provider (.ok data) =
      ([chatPayloadFor (dictGetJ data "message" (.str ""))], ⟨200, j⟩) ∧
    (∀ m, chatPayloadFor m =
      ⟨"openai/gpt-4o-mini", [chatSystemPrompt, ⟨"user", m⟩]⟩) ∧
    ((lookupJ data "message" = none ∨ lookupJ data "message" = some (.str "")) →
      dictGetJ data "message" (.str "") = .str "") := by
  refine ⟨by simp [chatHandler, hp], fun m => rfl, ?_⟩
  rintro (h | h) <;> simp [dictGetJ, h]

/-- Witness for C6: a body with no `message` key; the provider echoes a fixed
object, which comes back unmodified after exactly one call. -/
theorem chat_request_spec_witness :
    chatHandler (fun _ => .ok (.obj [("id", .str "cmpl-1")])) (.ok [("x", .num 1)]) =
      ([chatPayloadFor (.str "")], ⟨200, .obj [("id", .str "cmpl-1")]⟩) ∧
    dictGetJ [("x", JVal.num 1)] "message" (.str "") = .str "" :=
  ⟨(chat_request_spec (fun _ => .ok (.obj [("id", .str "cmpl-1")]))
      [("x", .num 1)] (.obj [("id", .str "cmpl-1")]) rfl).1,
   (chat_request_spec (fun _ => .ok (.obj [("id", .str "cmpl-1")]))
      [("x", .num 1)] (.obj [("id", .str "cmpl-1")]) rfl).2.2 (.inl rfl)⟩

/-- Counterexample to C7 as stated: the source contains two `requests.post`
call sites, not three. -/
theorem outbound_calls_counterexample :
    outboundCallSites.length = 2 ∧ outboundCallSites.length ≠ 3 := by
  decide

/-- Claim C7 (amended): the program has two outbound provider call sites, of
which exactly one passes no caller-specified timeout (the one in `chat`) and
the other passes the fixed timeout 30 (the one in `suggest`). -/
theorem outbound_calls_timeouts :
    outboundCallSites.length = 2 ∧
    (outboundCallSites.filter (fun c => c.timeout.isNone)).length = 1 ∧
    (outboundCallSites.filter (fun c => c.timeout == some 30)).length = 1 ∧
    (outboundCallSites.get? 0).map OutboundCallSite.handler = some "chat" ∧
    (outboundCallSites.get? 1).map OutboundCallSite.handler = some "suggest" := by
  decide

/-- Claim C8: the three artifacts are process-wide state loaded once at
startup; no handler assigns to them, so after any sequence of requests
(`/`, `/predict`, `/chat`, `/suggest`, in any order and against any provider
behaviour) the state equals its value at startup. -/
theorem artifacts_immutable (A : Artifacts) (rs : List Request) :
    runRequests A rs = A := by
  induction rs generalizing A with
  | nil => rfl
  | cons r rs ih =>
      unfold runRequests at *
      rw [List.foldl_cons, handleRequest_fst]
      exact ih A

/-- Appending the empty string on the right is the identity. -/
theorem str_append_empty (s : String) : s ++ "" = s := by
  cases s with
  | mk d => show String.mk (d ++ []) = String.mk d
            rw [List.append_nil]

/-- Claim C3: `/suggest` fails with status 400 exactly when the request body
is not valid JSON (a parsed body never produces a 400); with status 500 and a
detail when the outbound provider request fails; with status 500 and a detail
when the provider message content fails to parse as JSON; with status 500
when the provider response has no (or an empty) `choices`; and an error
result is never a normal JSON return. -/
theorem suggest_error_modes (provider : ChatPayload → ProviderOutcome)
    (loads : String → Except String JVal) :
    (∀ e, suggestHandler provider loads (.error e) =
      .httpError 400 "Invalid JSON body") ∧
    (∀ (body : List (String × JVal)) (d : String),
      suggestHandler provider loads (.ok body) ≠ .httpError 400 d) ∧
    (∀ (body : List (String × JVal)) (e : String),
      provider (suggestPayloadFor (suggestPromptOf body)) = .requestError e →
      suggestHandler provider loads (.ok body) =
        .httpError 500 ("API request failed: " ++ e)) ∧
    (∀ (body : List (String × JVal)) (e : String),
      provider (suggestPayloadFor (suggestPromptOf body)) = .response (.error e) →
      suggestHandler provider loads (.ok body) =
        .httpError 500 ("Invalid JSON response: " ++ e)) ∧
    (∀ (rd ch : JVal) (n : ℕ) (s e : String),
      pyContains rd "choices" = .ok true →
      pyIndexS rd "choices" = .ok ch →
      pyLen ch = .ok n → 0 < n →
      extractContent ch = .ok (.str s) →
      loads s = .error e →
      suggestExtract loads rd = .httpError 500 ("Invalid JSON response: " ++ e)) ∧
    (∀ rd : JVal, pyContains rd "choices" = .ok false →
      suggestExtract loads rd =
        .httpError 500 "Error: 500: No response from AI") ∧
    (∀ (rd ch : JVal), pyContains rd "choices" = .ok true →
      pyIndexS rd "choices" = .ok ch → pyLen ch = .ok 0 →
      suggestExtract loads rd =
        .httpError 500 "Error: 500: No response from AI") ∧
    (∀ (s : ℕ) (d : String) (j : JVal), SuggestResult.httpError s d ≠ .ok j) := by
  refine ⟨fun e => rfl, ?_, ?_, ?_, ?_, ?_, ?_, fun s d j h => by cases h⟩
  · intro body d h
    rcases hp : provider (suggestPayloadFor (suggestPromptOf body)) with e | p
    · simp [suggestHandler, hp] at h
    · rcases p with e | rd
      · simp [suggestHandler, hp] at h
      · simp [suggestHandler, hp] at h
        have hst := suggestExtract_status loads rd
        rw [h] at hst
        simp [suggestStatus] at hst
  · intro body e h
    simp [suggestHandler, h]
  · intro body e h
    simp [suggestHandler, h]
  · intro rd ch n s e hcont hch hlen hn hx hloads
    simp [suggestExtract, hcont, hch, hlen, hn, hx, hloads]
  · intro rd h
    simp [suggestExtract, h]
  · intro rd ch hcont hch hlen
    simp [suggestExtract, hcont, hch, hlen]

/-- A provider response with one choice carrying the message content
`"notjson"`, for the C3 witness. -/
def witRd : JVal :=
  .obj [("choices", .arr [.obj [("message", .obj [("content", .str "notjson")])]])]

/-- Witness for C3: each failure mode exercised at a concrete input. -/
theorem suggest_error_modes_witness :
    suggestHandler (fun _ => .requestError "x") (fun _ => .error "x")
      (.error "Expecting value") = .httpError 400 "Invalid JSON body" ∧
    suggestHandler (fun _ => .requestError "timed out") (fun _ => .error "x")
      (.ok []) ≠ .httpError 400 "Invalid JSON body" ∧
    suggestHandler (fun _ => .requestError "timed out") (fun _ => .error "x")
      (.ok []) = .httpError 500 "API request failed: timed out" ∧
    suggestHandler (fun _ => .response (.error "Expecting value"))
      (fun _ => .error "x") (.ok []) =
      .httpError 500 "Invalid JSON response: Expecting value" ∧
    suggestExtract (fun _ => .error "Expecting value: line 1 column 1 (char 0)")
      witRd =
      .httpError 500 "Invalid JSON response: Expecting value: line 1 column 1 (char 0)" ∧
    suggestExtract (fun _ => .error "x") (.obj [("id", .str "cmpl-1")]) =
      .httpError 500 "Error: 500: No response from AI" ∧
    suggestExtract (fun _ => .error "x") (.obj [("choices", .arr [])]) =
      .httpError 500 "Error: 500: No response from AI" ∧
    SuggestResult.httpError 500 "Error: 500: No response from AI" ≠ .ok (.obj []) :=
  ⟨(suggest_error_modes (fun _ => .requestError "x") (fun _ => .error "x")).1
      "Expecting value",
   (suggest_error_modes (fun _ => .requestError "timed out")
      (fun _ => .error "x")).2.1 [] "Invalid JSON body",
   (suggest_error_modes (fun _ => .requestError "timed out")
      (fun _ => .error "x")).2.2.1 [] "timed out" rfl,
   (suggest_error_modes (fun _ => .response (.error "Expecting value"))
      (fun _ => .error "x")).2.2.2.1 [] "Expecting value" rfl,
   (suggest_error_modes (fun _ => .requestError "x")
      (fun _ => .error "Expecting value: line 1 column 1 (char 0)")).2.2.2.2.1
      witRd (.arr [.obj [("message", .obj [("content", .str "notjson")])]]) 1
      "notjson" "Expecting value: line 1 column 1 (char 0)"
      rfl rfl rfl (by decide) rfl rfl,
   (suggest_error_modes (fun _ => .requestError "x")
      (fun _ => .error "x")).2.2.2.2.2.1 (.obj [("id", .str "cmpl-1")]) rfl,
   (suggest_error_modes (fun _ => .requestError "x")
      (fun _ => .error "x")).2.2.2.2.2.2.1 (.obj [("choices", .arr [])])
      (.arr []) rfl rfl rfl,
   (suggest_error_modes (fun _ => .requestError "x")
      (fun _ => .error "x")).2.2.2.2.2.2.2 500
      "Error: 500: No response from AI" (.obj [])⟩

/-- Claim C5 (amended): for a `/suggest` body whose `budget` is empty (more
generally, falsy), the prompt sent to the provider carries an empty budget,
and the handler returns the provider message content verbatim after JSON
parsing: it performs no server-side enforcement, so `travel.plan` and
`travel.budget_breakdown` in the returned object are whatever the provider
produced, `[]` and `{}` only when the provider complied with the rule stated
inside the prompt. -/
theorem suggest_empty_budget_passthrough (provider : ChatPayload → ProviderOutcome)
    (loads : String → Except String JVal)
    (body : List (String × JVal)) (rd ch : JVal) (n : ℕ) (s : String) (j : JVal)
    (hbudget : truthy (dictGetJ body "budget" (.str "")) = false)
    (hprov : provider (suggestPayloadFor (suggestPromptOf body)) = .response (.ok rd))
    (hcont : pyContains rd "choices" = .ok true)
    (hch : pyIndexS rd "choices" = .ok ch)
    (hlen : pyLen ch = .ok n) (hn : 0 < n)
    (hx : extractContent ch = .ok (.str s))
    (hloads : loads s = .ok j) :
    suggestPromptOf body =
      suggestPrompt (pyOr (dictGetJ body "activity" (.str "")) (.str "")) (.str "")
        (locationPart (dictGetJ body "lat" .null) (dictGetJ body "lng" .null)
          (dictGetJ body "town" .null)) ∧
    suggestHandler provider loads (.ok body) = .ok j := by
  constructor
  · simp [suggestPromptOf, pyOr, hbudget]
  · simp [suggestHandler, hprov, suggestExtract, hcont, hch, hlen, hn, hx, hloads]

/-- Body, provider and `loads` outcome for the C5 counterexample: the budget
is the empty string, yet the provider content carries a nonempty
`travel.plan` and `travel.budget_breakdown`. -/
def cexBody5 : List (String × JVal) :=
  [("activity", .str "traveling"), ("budget", .str "")]

/-- The JSON text the provider places in its message content: a valid JSON
document (braces written with escape codes). -/
def cexContent5Text : String :=
  "\x7b\"travel\": \x7b\"plan\": [\"Day 1: Penang\"], \"budget_breakdown\": \x7b\"Transport\": 100\x7d\x7d\x7d"

/-- The value `json.loads` produces from `cexContent5Text`. -/
def cexContent5 : JVal :=
  .obj [("travel", .obj [("plan", .arr [.str "Day 1: Penang"]),
                         ("budget_breakdown", .obj [("Transport", .num 100)])])]

/-- A provider response whose single choice carries `cexContent5Text` as its
message content. -/
def cexRd5 : JVal :=
  .obj [("choices", .arr [.obj [("message", .obj [("content", .str cexContent5Text)])]])]

def cexProvider5 : ChatPayload → ProviderOutcome :=
  fun _ => .response (.ok cexRd5)

/-- `json.loads` restricted to the strings this execution feeds it: it parses
`cexContent5Text` to `cexContent5` and raises on anything else, as the real
parser would. -/
def cexLoads5 : String → Except String JVal :=
  fun s =>
    if s = cexContent5Text then .ok cexContent5
    else .error "Expecting value: line 1 column 1 (char 0)"

/-- Counterexample to C5 as stated: a `/suggest` request with empty `budget`
for which the returned object has `travel.plan = ["Day 1: Penang"] ≠ []` and
`travel.budget_breakdown = {"Transport": 100} ≠ {}` — the code returns the
provider content verbatim and enforces nothing. -/
theorem suggest_empty_budget_counterexample :
    truthy (dictGetJ cexBody5 "budget" (.str "")) = false ∧
    suggestHandler cexProvider5 cexLoads5 (.ok cexBody5) = .ok cexContent5 ∧
    (do
      let t ← pyIndexS cexContent5 "travel"
      pyIndexS t "plan") = Except.ok (JVal.arr [.str "Day 1: Penang"]) ∧
    JVal.arr [.str "Day 1: Penang"] ≠ .arr [] ∧
    (do
      let t ← pyIndexS cexContent5 "travel"
      pyIndexS t "budget_breakdown") =
        Except.ok (JVal.obj [("Transport", .num 100)]) ∧
    JVal.obj [("Transport", .num 100)] ≠ .obj [] := by
  refine ⟨rfl, rfl, rfl, by simp, rfl, by simp⟩

/-- Claim C9: in `/suggest`, when `lat` or `lng` is falsy (absent — the
default is `None` — or `null`, or the number 0) the coordinate clause is
omitted from `locationPart`, leaving only the town clause, even when both
keys are present in the body; likewise a falsy `town` omits the town clause;
and the number 0 (equator / prime meridian) is falsy. -/
theorem suggest_falsy_location_omitted (body : List (String × JVal)) :
    ((truthy (dictGetJ body "lat" .null) = false ∨
      truthy (dictGetJ body "lng" .null) = false) →
      locationPart (dictGetJ body "lat" .null) (dictGetJ body "lng" .null)
          (dictGetJ body "town" .null) =
        (if truthy (dictGetJ body "town" .null) then
          "User town: " ++ pyStr (dictGetJ body "town" .null) ++ "." else "")) ∧
    (truthy (dictGetJ body "town" .null) = false →
      locationPart (dictGetJ body "lat" .null) (dictGetJ body "lng" .null)
          (dictGetJ body "town" .null) =
        (if truthy (dictGetJ body "lat" .null) && truthy (dictGetJ body "lng" .null)
        then
          "User location: latitude = " ++ pyStr (dictGetJ body "lat" .null) ++
            ", longitude = " ++ pyStr (dictGetJ body "lng" .null) ++ ". "
        else "")) ∧
    truthy (.num 0) = false := by
  refine ⟨?_, ?_, by decide⟩
  · rintro (h | h) <;> simp [locationPart, h]
  · intro h
    simp [locationPart, h, str_append_empty]

/-- Witness for C9: `lat` present but exactly 0 suppresses the coordinate
clause; an absent town suppresses the town clause. -/
theorem suggest_falsy_location_omitted_witness :
    locationPart (dictGetJ [("lat", JVal.num 0), ("lng", JVal.num 101),
        ("town", JVal.str "Ipoh")] "lat" .null)
      (dictGetJ [("lat", JVal.num 0), ("lng", JVal.num 101),
        ("town", JVal.str "Ipoh")] "lng" .null)
      (dictGetJ [("lat", JVal.num 0), ("lng", JVal.num 101),
        ("town", JVal.str "Ipoh")] "town" .null) = "User town: Ipoh." ∧
    locationPart (dictGetJ [("lat", JVal.num 3), ("lng", JVal.num 101)] "lat" .null)
      (dictGetJ [("lat", JVal.num 3), ("lng", JVal.num 101)] "lng" .null)
      (dictGetJ [("lat", JVal.num 3), ("lng", JVal.num 101)] "town" .null) =
      "User location: latitude = 3, longitude = 101. " :=
  ⟨(suggest_falsy_location_omitted
      [("lat", JVal.num 0), ("lng", JVal.num 101), ("town", JVal.str "Ipoh")]).1
      (Or.inl (by decide)),
   (suggest_falsy_location_omitted
      [("lat", JVal.num 3), ("lng", JVal.num 101)]).2.1 rfl⟩

/-- Claim C10: in `/suggest`, a falsy `activity` or `budget` value (absent,
null, false, 0, or the empty string) is coerced by `or ""` to the empty
string before prompt construction, so the prompt presents an empty budget to
the provider (whose rules block then prescribes the budget-empty behaviour). -/
theorem suggest_falsy_budget_coerced (body : List (String × JVal))
    (h : truthy (dictGetJ body "budget" (.str "")) = false) :
    pyOr (dictGetJ body "budget" (.str "")) (.str "") = .str "" ∧
    suggestPromptOf body =
      suggestPrompt (pyOr (dictGetJ body "activity" (.str "")) (.str "")) (.str "")
        (locationPart (dictGetJ body "lat" .null) (dictGetJ body "lng" .null)
          (dictGetJ body "town" .null)) ∧
    pyStr (JVal.str "") = "" ∧
    (truthy (dictGetJ body "activity" (.str "")) = false →
      pyOr (dictGetJ body "activity" (.str "")) (.str "") = .str "") := by
  refine ⟨by simp [pyOr, h], by simp [suggestPromptOf, pyOr, h], rfl, ?_⟩
  intro h2
  simp [pyOr, h2]

/-- Witness for C10: a budget equal to the number 0 is presented as empty. -/
theorem suggest_falsy_budget_coerced_witness :
    pyOr (dictGetJ [("activity", JVal.str "traveling"), ("budget", JVal.num 0)]
      "budget" (.str "")) (.str "") = .str "" ∧
    truthy (dictGetJ [("activity", JVal.str "traveling"), ("budget", JVal.num 0)]
      "budget" (.str "")) = false :=
  ⟨(suggest_falsy_budget_coerced
      [("activity", JVal.str "traveling"), ("budget", JVal.num 0)] (by decide)).1,
   by decide⟩

/-- Witness for C5 (amended): the empty-budget body of the counterexample
setup, where the provider content comes back verbatim. -/
theorem suggest_empty_budget_passthrough_witness :
    truthy (dictGetJ cexBody5 "budget" (.str "")) = false ∧
    suggestHandler cexProvider5 cexLoads5 (.ok cexBody5) = .ok cexContent5 :=
  ⟨rfl,
   (suggest_empty_budget_passthrough cexProvider5 cexLoads5 cexBody5 cexRd5
      (.arr [.obj [("message", .obj [("content", .str cexContent5Text)])]]) 1
      cexContent5Text cexContent5 rfl rfl rfl rfl rfl (by decide) rfl rfl).2⟩

end StressApi
